import Mathlib

/-!
Verification development for the `cMeasurementLoop` measurement-loop object
of the MCCI_Catena_SCD30 repository (example `scd30_lorawan`).

The repository ships the class header `cMeasurementLoop.h`.  The inline
member functions (`setTimer`, `clearTimer`, `timedOut`, `txComplete`),
the `State` enumeration, the `Flags` enumeration and the wire-format
constants are embedded directly from that source.  Members that are only
declared in the header (`poll`/`fsmDispatch`, `fillTxBuffer`,
`checkDeepSleep`, `begin`, `end`, `requestActive`, `sendBufferDone`) are
modelled from the specification document, as marked on each definition.
-/

namespace MeasurementLoop

/-- The FSM state enumeration `cMeasurementLoop::State` from the header. -/
inductive State where
  | stNoChange
  | stInitial
  | stInactive
  | stSleeping
  | stWake
  | stMeasure
  | stSleepSensor
  | stTransmit
  | stFinal
deriving DecidableEq

/-- `cMeasurementLoop::getStateName`, from the header (the `default`
branch of the C++ switch is unreachable over the enumeration). -/
def getStateName : State → String
  | State.stNoChange => "stNoChange"
  | State.stInitial => "stInitial"
  | State.stInactive => "stInactive"
  | State.stSleeping => "stSleeping"
  | State.stWake => "stWake"
  | State.stMeasure => "stMeasure"
  | State.stSleepSensor => "stSleepSensor"
  | State.stTransmit => "stTransmit"
  | State.stFinal => "stFinal"

/-- `kMessageFormat = 0x1E`, the uplink format tag from the header. -/
def kMessageFormat : Nat := 0x1E

/-- `kUplinkPort = 1` from the header. -/
def kUplinkPort : Nat := 1

/-- `kTxBufferSize = 36` from the header. -/
def kTxBufferSize : Nat := 36

/-- The `Flags` field-presence bit assignments from the header:
`Vbat = 1<<0`, `Vcc = 1<<1`, `Boot = 1<<2`, `TH = 1<<3`, `CO2ppm = 1<<4`. -/
def flagVbat : Nat := 1
def flagVcc : Nat := 2
def flagBoot : Nat := 4
def flagTH : Nat := 8
def flagCO2ppm : Nat := 16

/-- The modulus of the 32-bit tick counter (`millis()` and the
`std::uint32_t` timer fields). -/
def U32 : Nat := 4294967296

/-- The instance data of `cMeasurementLoop`: the bit-field booleans and
the two `std::uint32_t` timer words, as laid out in the header.  The
FSM state held by the embedded `m_fsm` object is represented by the
`fsmState` field.  32-bit fields are `Nat` kept below `U32`. -/
structure Loop where
  fsmState : State
  m_registered : Bool
  m_running : Bool
  m_exit : Bool
  m_active : Bool
  m_rqActive : Bool
  m_rqInactive : Bool
  m_measurement_valid : Bool
  m_fTimerEvent : Bool
  m_fTimerActive : Bool
  m_fSCD : Bool
  m_txpending : Bool
  m_txcomplete : Bool
  m_txerr : Bool
  m_fPrintedSleeping : Bool
  m_timer_start : Nat
  m_timer_delay : Nat
deriving DecidableEq

/-- `cMeasurementLoop::setTimer(ms)`, inline in the header: records the
current tick count (`millis()`, passed here as `now`) and the delay,
arms the timer and clears any stale event.  Stores truncate to the
32-bit fields. -/
def setTimer (s : Loop) (now ms : Nat) : Loop :=
  { s with
      m_timer_start := now % U32
      m_timer_delay := ms % U32
      m_fTimerActive := true
      m_fTimerEvent := false }

/-- `cMeasurementLoop::clearTimer()`, inline in the header: disarms the
timer and discards any pending event. -/
def clearTimer (s : Loop) : Loop :=
  { s with m_fTimerActive := false, m_fTimerEvent := false }

/-- `cMeasurementLoop::timedOut()`, inline in the header: reads the
event flag, clears it, and returns the value read. -/
def timedOut (s : Loop) : Bool × Loop :=
  (s.m_fTimerEvent, { s with m_fTimerEvent := false })

/-- `cMeasurementLoop::txComplete()`, inline in the header: returns
`m_txcomplete`; the object is not modified. -/
def txComplete (s : Loop) : Bool × Loop :=
  (s.m_txcomplete, s)

/-- Unsigned 32-bit difference `now - start` of two tick values, the
wraparound-safe elapsed-time computation. -/
def elapsedU32 (now start : Nat) : Nat :=
  (now % U32 + U32 - start % U32) % U32

/-- Modelled from the spec: the armed timer's expiry test.  The body of
the member that sets `m_fTimerEvent` is not in the header; per the spec
the event fires when the unsigned difference `now - timerStart` reaches
`timerDelay`. -/
def timerExpiredAt (s : Loop) (now : Nat) : Bool :=
  decide (s.m_timer_delay ≤ elapsedU32 now s.m_timer_start)

/-- Modelled from the spec: the per-tick timer update that latches
`m_fTimerEvent`.  The spec's timer is one-shot: when the armed window
elapses the event is latched exactly once and the timer disarms. -/
def timerPoll (s : Loop) (now : Nat) : Loop :=
  if s.m_fTimerActive && timerExpiredAt s now then
    { s with m_fTimerEvent := true, m_fTimerActive := false }
  else s

/-- The external signals sampled by one `poll()` tick: the tick counter
(`millis()`), the sensor-ready signal, and the measurement-read
completion signal with its success flag. -/
structure Inputs where
  now : Nat
  sensorReady : Bool
  readingReady : Bool
  readingOk : Bool
deriving DecidableEq

/-- Modelled from the spec: the short sensor settle delay armed on entry
to `stWake` (the concrete number is configuration, not fixed by the
header). -/
def kSettleDelayMs : Nat := 1000

/-- Modelled from the spec: the inter-cycle sleep delay armed on entry
to `stSleeping` (the concrete number is configuration, not fixed by the
header). -/
def kSleepDelayMs : Nat := 30000

/-- Modelled from the spec: `startTransmission` marks one transmission
in flight: `m_txpending` set, completion and error flags cleared. -/
def startTransmission (s : Loop) : Loop :=
  { s with m_txpending := true, m_txcomplete := false, m_txerr := false }

/-- Modelled from the spec: `sendBufferDone(fSuccess)`, the radio
completion signal: pending becomes complete, with the error flag
recording failure. -/
def sendBufferDone (s : Loop) (fSuccess : Bool) : Loop :=
  { s with m_txpending := false, m_txcomplete := true, m_txerr := !fSuccess }

/-- Modelled from the spec: entry action of `stWake` — wake the sensor
(external effect) and arm the short settle timer. -/
def enterWake (s : Loop) (inp : Inputs) : Loop :=
  setTimer s inp.now kSettleDelayMs

/-- Modelled from the spec: entry action of `stSleeping` — arm the
inter-cycle sleep timer and reset the one-shot sleep notice. -/
def enterSleeping (s : Loop) (inp : Inputs) : Loop :=
  { setTimer s inp.now kSleepDelayMs with m_fPrintedSleeping := false }

/-- Modelled from the spec: entry action of `stFinal` — deregister from
the poller. -/
def enterFinal (s : Loop) : Loop :=
  { s with m_registered := false, m_running := false }

/-- Modelled from the spec: `fsmDispatch` — evaluates the current
state's exit condition once; on a transition the new state's entry
action runs synchronously.  Transition table:
`stInitial` always → `stInactive`; `stInactive` consumes `m_rqActive`
→ `stWake` (activate takes precedence and clears both request flags),
else consumes a spurious `m_rqInactive` with no state change, else
`m_exit` → `stFinal`; `stSleeping` consumes a spurious `m_rqActive`
(precedence, clears both flags, no state change), else consumes
`m_rqInactive` → `stInactive`, else timer expiry → `stWake`;
`stWake` settle-timer expiry or sensor-ready → `stMeasure`;
`stMeasure` reading available → `stSleepSensor` recording validity;
`stSleepSensor` always → `stTransmit` (starting the transmission);
`stTransmit` consumes `m_txcomplete` → `stSleeping`; `stFinal` and
`stNoChange` are inert. -/
def fsmDispatch (s : Loop) (inp : Inputs) : Loop :=
  match s.fsmState with
  | State.stNoChange => s
  | State.stInitial =>
      { s with fsmState := State.stInactive }
  | State.stInactive =>
      if s.m_rqActive then
        enterWake { s with fsmState := State.stWake, m_rqActive := false,
                           m_rqInactive := false, m_active := true } inp
      else if s.m_rqInactive then
        { s with m_rqInactive := false }
      else if s.m_exit then
        enterFinal { s with fsmState := State.stFinal }
      else s
  | State.stSleeping =>
      if s.m_rqActive then
        { s with m_rqActive := false, m_rqInactive := false, m_active := true }
      else if s.m_rqInactive then
        clearTimer { s with fsmState := State.stInactive,
                            m_rqInactive := false, m_active := false }
      else
        let r := timedOut s
        if r.1 then enterWake { r.2 with fsmState := State.stWake } inp
        else r.2
  | State.stWake =>
      let r := timedOut s
      if r.1 || inp.sensorReady then
        { r.2 with fsmState := State.stMeasure }
      else r.2
  | State.stMeasure =>
      if inp.readingReady then
        { s with fsmState := State.stSleepSensor,
                 m_measurement_valid := inp.readingOk }
      else s
  | State.stSleepSensor =>
      startTransmission { s with fsmState := State.stTransmit }
  | State.stTransmit =>
      if s.m_txcomplete then
        enterSleeping { s with fsmState := State.stSleeping,
                               m_txcomplete := false } inp
      else s
  | State.stFinal => s

/-- Modelled from the spec: `poll()` — the per-tick entry point: updates
the one-shot timer, then performs at most one state dispatch; inert
unless the object is running. -/
def poll (s : Loop) (inp : Inputs) : Loop :=
  if s.m_running then fsmDispatch (timerPoll s inp.now) inp else s

/-- Whether the armed or latched timer notification is visible at tick
`now`: either the event is already latched or the armed window has
elapsed. -/
def timerFired (s : Loop) (now : Nat) : Bool :=
  s.m_fTimerEvent || (s.m_fTimerActive && timerExpiredAt s now)

/-- The current state's exit condition, read off the spec's transition
table: true exactly when this tick's dispatch transitions (or consumes
a request flag). -/
def exitCond (s : Loop) (inp : Inputs) : Bool :=
  match s.fsmState with
  | State.stNoChange => false
  | State.stInitial => true
  | State.stInactive => s.m_rqActive || s.m_rqInactive || s.m_exit
  | State.stSleeping => s.m_rqActive || s.m_rqInactive || timerFired s inp.now
  | State.stWake => timerFired s inp.now || inp.sensorReady
  | State.stMeasure => inp.readingReady
  | State.stSleepSensor => true
  | State.stTransmit => s.m_txcomplete
  | State.stFinal => false

/-- Modelled from the spec: `begin()` — transitions the machine from
uninitialized to `stInitial` and registers it with the poller;
idempotent if already begun. -/
def beginLoop (s : Loop) : Loop :=
  if s.m_running then s
  else { s with m_running := true, m_registered := true,
                fsmState := State.stInitial, m_exit := false }

/-- Modelled from the spec: `end()` — requests termination by setting
the exit flag, observed by the FSM at a safe point; a no-op if never
begun. -/
def endLoop (s : Loop) : Loop :=
  if s.m_running then { s with m_exit := true } else s

/-- Modelled from the spec: `requestActive(fEnable)` — sets the
corresponding edge-triggered request flag; the effect is deferred to
the next `poll()`. -/
def requestActive (s : Loop) (fEnable : Bool) : Loop :=
  if fEnable then { s with m_rqActive := true }
  else { s with m_rqInactive := true }

/-- One external stimulus applied to the measurement loop. -/
inductive Event where
  | evBegin
  | evEnd
  | evRequestActive (fEnable : Bool)
  | evPoll (inp : Inputs)
  | evSendDone (fSuccess : Bool)
deriving DecidableEq

/-- Apply one stimulus to the loop state. -/
def step (s : Loop) : Event → Loop
  | Event.evBegin => beginLoop s
  | Event.evEnd => endLoop s
  | Event.evRequestActive f => requestActive s f
  | Event.evPoll inp => poll s inp
  | Event.evSendDone ok => sendBufferDone s ok

/-- The freshly constructed loop object: all flag bits clear, timer
words zero (the data-model's initial state before `begin()`). -/
def initialLoop : Loop :=
  { fsmState := State.stInitial
    m_registered := false
    m_running := false
    m_exit := false
    m_active := false
    m_rqActive := false
    m_rqInactive := false
    m_measurement_valid := false
    m_fTimerEvent := false
    m_fTimerActive := false
    m_fSCD := false
    m_txpending := false
    m_txcomplete := false
    m_txerr := false
    m_fPrintedSleeping := false
    m_timer_start := 0
    m_timer_delay := 0 }

/-- Run a sequence of external stimuli from the initial state. -/
def run (evs : List Event) : Loop := evs.foldl step initialLoop

/-- The transmission-lifecycle invariant: never simultaneously pending
and complete. -/
def txFlagsOk (s : Loop) : Bool := !(s.m_txpending && s.m_txcomplete)

/-- Modelled from the spec: `checkDeepSleep()` — deep sleep is allowed
only with no transmission pending, and then when inactive (parked) or
between cycles (`stSleeping`) with the remaining time to the next wake
(`remainingMs`) at least the deep-sleep entry/exit overhead
(`overheadMs`). -/
def checkDeepSleep (s : Loop) (remainingMs overheadMs : Nat) : Bool :=
  if s.m_txpending then false
  else if s.m_active = false then true
  else decide (s.fsmState = State.stSleeping ∧ overheadMs ≤ remainingMs)

/-- Modelled from the spec: the per-cycle measurement record carried to
the encoder.  The CO2 field is carried as its encoded 16-bit `uflt16`
value; the conversion itself is outside this model. -/
structure Measurement where
  vBat : Int
  vCc : Int
  bootFlag : Nat
  temperature : Int
  rh : Nat
  co2 : Nat
deriving DecidableEq

/-- Big-endian 2-byte encoding of a 16-bit unsigned value. -/
def encU16 (x : Nat) : List Nat := [x / 256 % 256, x % 256]

/-- Big-endian 2-byte encoding of a 16-bit signed value (two's
complement). -/
def encI16 (x : Int) : List Nat := encU16 (x % 65536).toNat

/-- Battery-voltage field block (2 bytes, fixed-point). -/
def encVbat (m : Measurement) : List Nat := encI16 m.vBat

/-- Supply-voltage field block (2 bytes, fixed-point). -/
def encVcc (m : Measurement) : List Nat := encI16 m.vCc

/-- Boot field block (1 byte). -/
def encBoot (m : Measurement) : List Nat := [m.bootFlag % 256]

/-- Temperature/humidity field block (4 bytes: int16 temperature in
0.005 degC units, then uint16 relative humidity). -/
def encTH (m : Measurement) : List Nat := encI16 m.temperature ++ encU16 m.rh

/-- CO2 field block (2 bytes, uflt16). -/
def encCO2 (m : Measurement) : List Nat := encU16 m.co2

/-- The field block selected by `Flags` bit `i`. -/
def fieldBytes (m : Measurement) : Nat → List Nat
  | 0 => encVbat m
  | 1 => encVcc m
  | 2 => encBoot m
  | 3 => encTH m
  | 4 => encCO2 m
  | _ => []

/-- Modelled from the spec: `fillTxBuffer` — header byte
`kMessageFormat`, then the flags bitmask byte, then the present field
blocks concatenated in ascending `Flags` bit order; clear flags
contribute nothing. -/
def fillTxBuffer (m : Measurement) (flags : Nat) : List Nat :=
  [kMessageFormat, flags % 256]
  ++ (if flags.testBit 0 then encVbat m else [])
  ++ (if flags.testBit 1 then encVcc m else [])
  ++ (if flags.testBit 2 then encBoot m else [])
  ++ (if flags.testBit 3 then encTH m else [])
  ++ (if flags.testBit 4 then encCO2 m else [])

/-- A loop state with a transmission in flight, used as a concrete
evaluation point. -/
def sPending : Loop := { initialLoop with m_txpending := true }

/-- C10: `txComplete()` is a pure read: it returns the current value of
`m_txcomplete` and changes no field; repeated calls return the same
value (it does not consume the flag the way `timedOut()` does). -/
theorem txComplete_pure_read (s : Loop) :
    (txComplete s).1 = s.m_txcomplete ∧ (txComplete s).2 = s ∧
    (txComplete (txComplete s).2).1 = (txComplete s).1 := by
  simp [txComplete]

/-- C3: after `clearTimer()`, `timedOut()` returns false for every
timer state (any pending event is discarded), and reading the timer of
a freshly constructed or freshly begun loop — one never armed — also
returns false. -/
theorem clearTimer_discards_event (s : Loop) :
    (timedOut (clearTimer s)).1 = false ∧
    (timedOut initialLoop).1 = false ∧
    (timedOut (beginLoop initialLoop)).1 = false := by
  refine ⟨rfl, rfl, ?_⟩
  simp [timedOut, beginLoop, initialLoop]

/-- C7: `checkDeepSleep()` returns false whenever a transmission is
pending, regardless of every other field; and it returns true only
when the loop is inactive, or is between cycles (`stSleeping`) with no
pending transmit and the remaining time to the next wake at least the
deep-sleep overhead. -/
theorem checkDeepSleep_spec (s : Loop) (rem ovh : Nat) :
    (s.m_txpending = true → checkDeepSleep s rem ovh = false) ∧
    (checkDeepSleep s rem ovh = true →
      s.m_txpending = false ∧
      (s.m_active = false ∨
        (s.fsmState = State.stSleeping ∧ ovh ≤ rem))) := by
  constructor
  · intro h
    simp [checkDeepSleep, h]
  · intro h
    by_cases hp : s.m_txpending
    · simp [checkDeepSleep, hp] at h
    · refine ⟨by simp [hp], ?_⟩
      by_cases ha : s.m_active = false
      · exact Or.inl ha
      · simp [checkDeepSleep, hp, ha] at h
        exact Or.inr h

/-- Witness for C7 at a concrete pending-transmission state. -/
theorem checkDeepSleep_spec_witness :
    sPending.m_txpending = true ∧ checkDeepSleep sPending 1000 10 = false :=
  ⟨by decide, (checkDeepSleep_spec sPending 1000 10).1 (by decide)⟩

/-- C6: with only the primary fields flagged (TH and CO2ppm) the buffer
is header, flags, 4 TH bytes, 2 CO2 bytes — 8 bytes, no voltage bytes;
additionally flagging Vbat and Vcc inserts exactly the 2-byte Vbat
block then the 2-byte Vcc block ahead of the same field bytes, for 12
bytes total. -/
theorem fillTxBuffer_primary_fields (m : Measurement) :
    fillTxBuffer m (flagTH + flagCO2ppm) =
      [kMessageFormat, flagTH + flagCO2ppm] ++ encTH m ++ encCO2 m ∧
    (fillTxBuffer m (flagTH + flagCO2ppm)).length = 8 ∧
    fillTxBuffer m (flagVbat + flagVcc + flagTH + flagCO2ppm) =
      [kMessageFormat, flagVbat + flagVcc + flagTH + flagCO2ppm]
        ++ encVbat m ++ encVcc m ++ encTH m ++ encCO2 m ∧
    (fillTxBuffer m (flagVbat + flagVcc + flagTH + flagCO2ppm)).length = 12 := by
  refine ⟨?_, ?_, ?_, ?_⟩ <;>
    simp [fillTxBuffer, flagTH, flagCO2ppm, flagVbat, flagVcc,
          (by decide : Nat.testBit 24 0 = false),
          (by decide : Nat.testBit 24 1 = false),
          (by decide : Nat.testBit 24 2 = false),
          (by decide : Nat.testBit 24 3 = true),
          (by decide : Nat.testBit 24 4 = true),
          (by decide : Nat.testBit 27 0 = true),
          (by decide : Nat.testBit 27 1 = true),
          (by decide : Nat.testBit 27 2 = false),
          (by decide : Nat.testBit 27 3 = true),
          (by decide : Nat.testBit 27 4 = true),
          encTH, encCO2, encVbat, encVcc, encU16, encI16]

/-- Read and discard the timer notification, keeping only the state. -/
def consume (s : Loop) : Loop := (timedOut s).2

/-- After any read, the event flag is clear. -/
theorem consume_event (t : Loop) : (consume t).m_fTimerEvent = false := rfl

/-- However many further reads happen, the event flag stays clear. -/
theorem iterate_consume_event (t : Loop) (n : Nat) :
    (consume^[n] (consume t)).m_fTimerEvent = false := by
  induction n with
  | zero => exact consume_event t
  | succ k ih =>
      rw [Function.iterate_succ_apply']
      exact consume_event _

/-- A loop state whose timer event has fired, used as a concrete
evaluation point. -/
def sEvent : Loop := { initialLoop with m_fTimerEvent := true }

/-- C2: once the timer event is latched, the first `timedOut()` returns
true, every later read returns false no matter how many are made, and
only re-arming with `setTimer` and letting the new window elapse makes
`timedOut()` return true again. -/
theorem timedOut_exactly_once (s : Loop) (n now ms now2 : Nat)
    (h : s.m_fTimerEvent = true)
    (hexp : ms % U32 ≤ elapsedU32 now2 now) :
    (timedOut s).1 = true ∧
    (timedOut (consume^[n] (consume s))).1 = false ∧
    (timedOut (timerPoll (setTimer (consume s) now ms) now2)).1 = true := by
  refine ⟨by simp [timedOut, h], ?_, ?_⟩
  · have hclear := iterate_consume_event s n
    simp [timedOut, hclear]
  · have hc : timerExpiredAt (setTimer (consume s) now ms) now2 = true := by
      simp only [timerExpiredAt, setTimer, elapsedU32, U32,
        decide_eq_true_eq] at hexp ⊢
      omega
    have hact : (setTimer (consume s) now ms).m_fTimerActive = true := rfl
    simp [timerPoll, hc, hact, timedOut]

/-- Witness for C2 at a concrete latched-event state. -/
theorem timedOut_exactly_once_witness :
    sEvent.m_fTimerEvent = true ∧ 500 % U32 ≤ elapsedU32 700 100 ∧
    (timedOut sEvent).1 = true :=
  ⟨by decide, by decide,
   (timedOut_exactly_once sEvent 3 100 500 700 (by decide) (by decide)).1⟩

/-- C4: the armed timer's expiry condition is the unsigned mod-2^32
difference test: for a timer armed at tick `t0` with delay `ms`, read
at the (possibly wrapped) tick `(t0 + e) % 2^32` after `e` real ticks,
the timer reads expired exactly when `ms ≤ e` — correct across tick
counter wraparound. -/
theorem timer_wraparound (s : Loop) (t0 ms e : Nat)
    (hms : ms < U32) (he : e < U32) :
    (timerExpiredAt (setTimer s t0 ms) ((t0 + e) % U32) = true) ↔ ms ≤ e := by
  simp only [timerExpiredAt, setTimer, elapsedU32, U32,
    decide_eq_true_eq] at *
  omega

/-- Witness for C4 at a concrete arming tick close to the 32-bit wrap:
the read tick has wrapped around zero, yet the expiry test fires. -/
theorem timer_wraparound_witness :
    500 < U32 ∧ 600 < U32 ∧
    timerExpiredAt (setTimer initialLoop 4294967000 500)
      ((4294967000 + 600) % U32) = true :=
  ⟨by decide, by decide,
   (timer_wraparound initialLoop 4294967000 500 600 (by decide)
      (by decide)).mpr (by decide)⟩

/-- A concrete measurement record, used as an evaluation point. -/
def mSample : Measurement :=
  { vBat := 3300, vCc := 5000, bootFlag := 1,
    temperature := 4000, rh := 30000, co2 := 1234 }

/-- C5: the encoded buffer starts with the fixed format tag
`kMessageFormat`, then the flags bitmask byte; the rest is exactly the
field blocks whose flag bits are set, concatenated in ascending flag
bit order (Vbat, Vcc, Boot, TH, CO2ppm), clear flags contributing zero
bytes; and the total length never exceeds the 36-byte capacity. -/
theorem fillTxBuffer_wire_format (m : Measurement) (flags : Nat)
    (hf : flags < 256) :
    (fillTxBuffer m flags).head? = some kMessageFormat ∧
    (fillTxBuffer m flags)[1]? = some flags ∧
    List.drop 2 (fillTxBuffer m flags) =
      (List.range 5).foldr
        (fun i acc => (if flags.testBit i then fieldBytes m i else []) ++ acc)
        [] ∧
    (fillTxBuffer m flags).length ≤ kTxBufferSize := by
  refine ⟨by simp [fillTxBuffer], ?_, ?_, ?_⟩
  · simp [fillTxBuffer, Nat.mod_eq_of_lt hf]
  · simp [fillTxBuffer, fieldBytes,
      (by decide : List.range 5 = [0, 1, 2, 3, 4])]
  · cases h0 : flags.testBit 0 <;> cases h1 : flags.testBit 1 <;>
      cases h2 : flags.testBit 2 <;> cases h3 : flags.testBit 3 <;>
      cases h4 : flags.testBit 4 <;>
      simp [fillTxBuffer, h0, h1, h2, h3, h4, encVbat, encVcc, encBoot,
        encTH, encCO2, encU16, encI16, kTxBufferSize]

/-- Witness for C5 at a concrete measurement and flag byte. -/
theorem fillTxBuffer_wire_format_witness :
    21 < 256 ∧ (fillTxBuffer mSample 21).head? = some kMessageFormat :=
  ⟨by decide, (fillTxBuffer_wire_format mSample 21 (by decide)).1⟩

/-- Reading the timer notification does not change anything except the
event flag itself. -/
theorem timedOut_fst (s : Loop) : (timedOut s).1 = s.m_fTimerEvent := rfl

/-- Reading an un-notified timer leaves the state literally unchanged. -/
theorem timedOut_snd_of_clear (s : Loop) (h : s.m_fTimerEvent = false) :
    (timedOut s).2 = s := by
  cases s
  simp_all [timedOut]

/-- C1: a `poll()` tick on which the current state's exit condition is
unsatisfied and the timer has not fired leaves the whole object —
state, request flags and every other field — unchanged. -/
theorem poll_no_exit_no_effect (s : Loop) (inp : Inputs)
    (h1 : exitCond s inp = false) (h2 : timerFired s inp.now = false) :
    poll s inp = s := by
  have hev : s.m_fTimerEvent = false := by
    cases hevb : s.m_fTimerEvent
    · rfl
    · rw [timerFired, hevb] at h2
      simp at h2
  have hq : (s.m_fTimerActive && timerExpiredAt s inp.now) = false := by
    rw [timerFired, hev] at h2
    simpa using h2
  have htp : timerPoll s inp.now = s := by
    simp [timerPoll, hq]
  unfold poll
  rw [htp]
  by_cases hr : s.m_running = true
  swap
  · simp [hr]
  rw [hr]
  simp only [if_true]
  cases hst : s.fsmState <;> simp only [exitCond, hst] at h1 <;>
    simp_all [fsmDispatch, hst, timedOut_fst, timedOut_snd_of_clear s hev]

/-- A parked, running loop with nothing pending, used as a concrete
evaluation point. -/
def sIdle : Loop :=
  { initialLoop with m_running := true, fsmState := State.stInactive }

/-- Quiet input signals at tick 0. -/
def inpQuiet : Inputs :=
  { now := 0, sensorReady := false, readingReady := false, readingOk := false }

/-- Witness for C1 at a concrete idle state and quiet inputs. -/
theorem poll_no_exit_no_effect_witness :
    exitCond sIdle inpQuiet = false ∧ timerFired sIdle inpQuiet.now = false ∧
    poll sIdle inpQuiet = sIdle :=
  ⟨by decide, by decide,
   poll_no_exit_no_effect sIdle inpQuiet (by decide) (by decide)⟩

/-- C8: if both request flags are set when a dispatch examines them (in
`stInactive` or `stSleeping`), the dispatch processes the activate
request — the loop ends up active, in `stWake` if it was parked and
still in `stSleeping` otherwise — and deterministically clears both
flags in that single dispatch. -/
theorem both_requests_activate_wins (s : Loop) (inp : Inputs)
    (hrun : s.m_running = true)
    (hA : s.m_rqActive = true) (hI : s.m_rqInactive = true)
    (hs : s.fsmState = State.stInactive ∨ s.fsmState = State.stSleeping) :
    (poll s inp).m_rqActive = false ∧
    (poll s inp).m_rqInactive = false ∧
    (poll s inp).m_active = true ∧
    (s.fsmState = State.stInactive → (poll s inp).fsmState = State.stWake) ∧
    (s.fsmState = State.stSleeping → (poll s inp).fsmState = State.stSleeping) := by
  unfold poll timerPoll
  rw [hrun]
  simp only [if_true]
  rcases hs with hs | hs <;>
    split <;>
      simp [fsmDispatch, hs, hA, hI, enterWake, setTimer]

/-- A sleeping, active loop with both request flags raised, used as a
concrete evaluation point. -/
def sBothRq : Loop :=
  { initialLoop with m_running := true, m_active := true,
                     fsmState := State.stSleeping,
                     m_rqActive := true, m_rqInactive := true }

/-- Witness for C8 at a concrete state with both requests raised. -/
theorem both_requests_activate_wins_witness :
    sBothRq.m_running = true ∧ sBothRq.m_rqActive = true ∧
    sBothRq.m_rqInactive = true ∧
    (poll sBothRq inpQuiet).m_rqActive = false ∧
    (poll sBothRq inpQuiet).m_rqInactive = false :=
  ⟨by decide, by decide, by decide,
   (both_requests_activate_wins sBothRq inpQuiet (by decide) (by decide)
      (by decide) (Or.inr (by decide))).1,
   (both_requests_activate_wins sBothRq inpQuiet (by decide) (by decide)
      (by decide) (Or.inr (by decide))).2.1⟩

/-- The timer update touches no transmission flag. -/
theorem txFlagsOk_timerPoll (s : Loop) (now : Nat) :
    txFlagsOk (timerPoll s now) = txFlagsOk s := by
  unfold timerPoll
  split <;> simp [txFlagsOk]

/-- One dispatch preserves the transmission-lifecycle invariant. -/
theorem txFlagsOk_dispatch (s : Loop) (inp : Inputs)
    (h : txFlagsOk s = true) :
    txFlagsOk (fsmDispatch s inp) = true := by
  unfold fsmDispatch
  cases hst : s.fsmState <;>
    simp_all [txFlagsOk, enterWake, enterSleeping, enterFinal, setTimer,
      clearTimer, startTransmission, timedOut] <;>
    split_ifs <;> simp_all

/-- Every external stimulus preserves the transmission-lifecycle
invariant. -/
theorem txFlagsOk_step (s : Loop) (ev : Event) (h : txFlagsOk s = true) :
    txFlagsOk (step s ev) = true := by
  cases ev with
  | evBegin =>
      simp only [step, beginLoop]
      split
      · exact h
      · simpa [txFlagsOk] using h
  | evEnd =>
      simp only [step, endLoop]
      split
      · simpa [txFlagsOk] using h
      · exact h
  | evRequestActive f =>
      simp only [step, requestActive]
      split
      · simpa [txFlagsOk] using h
      · simpa [txFlagsOk] using h
  | evPoll inp =>
      simp only [step, poll]
      split
      · refine txFlagsOk_dispatch _ inp ?_
        rw [txFlagsOk_timerPoll]
        exact h
      · exact h
  | evSendDone ok =>
      simp [step, sendBufferDone, txFlagsOk]

/-- C9: along every sequence of `begin()`, `end()`, `requestActive`,
`poll()` and radio completion signals from the initial state,
`m_txpending` and `m_txcomplete` are never simultaneously true. -/
theorem tx_never_pending_and_complete (evs : List Event) :
    ((run evs).m_txpending && (run evs).m_txcomplete) = false := by
  have key : ∀ s, txFlagsOk s = true →
      txFlagsOk (evs.foldl step s) = true := by
    induction evs with
    | nil => intro s hs; exact hs
    | cons e t ih =>
        intro s hs
        exact ih _ (txFlagsOk_step s e hs)
  have h : txFlagsOk (run evs) = true := key initialLoop (by decide)
  cases hp : (run evs).m_txpending <;> cases hc : (run evs).m_txcomplete <;>
    simp_all [txFlagsOk]

end MeasurementLoop
